import Mathlib

/-!
Verification of the bridge event listener (src/script.py).

Shallow embedding of the event-relay pipeline: the StateDB file-backed
idempotency store, the validation and replay-protection logic of
TransactionProcessor.process_lock_event, the simulated destination
transaction, and the drain loop of BridgeEventListener.start_listening.

Ambient effects are made explicit parameters:
* time.time() becomes a `now : Nat` argument;
* the outcome of a file write (open for writing plus json.dump) becomes a
  `WriteOutcome` argument (`ok`; `failOpen` = IOError raised on open;
  `failMid` = failure after the open-for-write has already truncated the
  file);
* Python exceptions escaping a function are modelled with `Except` or an
  `Option PyErr` field.
-/

set_option autoImplicit false

namespace Bever

/-- Python exceptions that the embedded code can raise or catch. -/
inductive PyErr where
  | keyError (field : String)
  | fileNotFoundError
  | jsonDecodeError
  | ioError
  deriving DecidableEq, Repr

/-- Decoded argument set of a TokensLocked event. Each field is optional
because process_lock_event tests membership (k in event_args) before use:
an absent field is `none`. -/
structure EventArgs where
  sender : Option String
  token : Option String
  amount : Option Int
  destinationChainId : Option Nat
  recipient : Option String
  deriving DecidableEq, Repr

/-- A raw event as fetched by the filter. The transactionHash, logIndex and
args entries are accessed unconditionally by process_lock_event, so they are
structural fields. -/
structure RawEvent where
  transactionHash : String
  logIndex : Nat
  args : EventArgs
  deriving DecidableEq, Repr

/-- The deduplication key built at script.py line 185: the transaction hash
and the log index joined by a hyphen. -/
def eventIdentifier (e : RawEvent) : String :=
  e.transactionHash ++ "-" ++ toString e.logIndex

/-- The snapshot string stored alongside the timestamp, modelling
str(event_data): a concrete serialization of the argument record, field by
field in dictionary order. -/
def reprArgs (a : EventArgs) : String :=
  let f : Option String → String := fun o => match o with
    | some s => s
    | none => "<absent>"
  "sender: " ++ f a.sender ++ "; token: " ++ f a.token ++
    "; amount: " ++ (match a.amount with | some n => toString n | none => "<absent>") ++
    "; destinationChainId: " ++
      (match a.destinationChainId with | some n => toString n | none => "<absent>") ++
    "; recipient: " ++ f a.recipient

/-- The value stored under a key in the JSON database: a timestamp from
time.time() and the serialized event data. -/
structure ProcessedRecord where
  timestamp : Nat
  eventData : String
  deriving DecidableEq, Repr

/-- The in-memory database held by StateDB: a JSON object, i.e. keys in
insertion order mapped to records. -/
abbrev EventDb := List (String × ProcessedRecord)

/-- Key lookup in the database, modelling dictionary access and the membership
test (k in d). Keys are unique by construction, so first match suffices. -/
def dbLookup (k : String) : EventDb → Option ProcessedRecord
  | [] => none
  | (k1, v) :: rest => if k = k1 then some v else dbLookup k rest

/-- Contents of the durable file at db_path. The `corrupt` case covers any
bytes that json.load rejects, including a file truncated by an interrupted
in-place write. -/
inductive FileContent where
  | missing
  | corrupt
  | json (db : EventDb)
  deriving DecidableEq, Repr

/-- Outcome of the file write performed by the save method:
`ok` means open and json.dump both succeed;
`failOpen` means the open raises IOError and the file is untouched;
`failMid` means the open-for-write succeeded (truncating the file in place)
and the write then failed, leaving bytes that json.load rejects. -/
inductive WriteOutcome where
  | ok
  | failOpen
  | failMid
  deriving DecidableEq, Repr

/-- A StateDB instance together with the durable file it manages. -/
structure StateDB where
  db : EventDb
  file : FileContent
  deriving DecidableEq, Repr

namespace StateDB

/-- Embeds _load_db (script.py lines 63-70): open then json.load, catching
FileNotFoundError and JSONDecodeError to return the empty dictionary. Any
other exception would propagate, but opening and parsing raise only those
two here. -/
def load_db (f : FileContent) : Except PyErr EventDb :=
  let attempt : Except PyErr EventDb :=
    match f with
    | .missing => .error .fileNotFoundError
    | .corrupt => .error .jsonDecodeError
    | .json db => .ok db
  match attempt with
  | .ok db => .ok db
  | .error .fileNotFoundError => .ok []
  | .error .jsonDecodeError => .ok []
  | .error e => .error e

/-- Embeds the constructor (script.py lines 53-61), which sets the in-memory
database from _load_db over the durable file. -/
def init (f : FileContent) : Except PyErr StateDB := do
  let db ← load_db f
  .ok { db := db, file := f }

/-- Embeds _save_db (script.py lines 72-78): the file at db_path is opened
with mode w, truncating it in place, then json.dump writes the whole
database; IOError is caught and only logged. Returns the new file contents;
the method itself never raises. -/
def save_db (db : EventDb) (file : FileContent) (w : WriteOutcome) : FileContent :=
  match w with
  | .ok => .json db
  | .failOpen => file
  | .failMid => .corrupt

/-- Embeds has_processed (script.py lines 80-82): the membership test of the
key in the in-memory dictionary. -/
def has_processed (s : StateDB) (k : String) : Bool :=
  (dbLookup k s.db).isSome

/-- Embeds mark_as_processed (script.py lines 84-94). The duplicate branch
logs a warning and returns; the fresh branch inserts the record and calls
_save_db. Neither branch raises or returns an error value: the
caller-visible result is always plain success. -/
def mark_as_processed (s : StateDB) (k : String) (eventData : String)
    (now : Nat) (w : WriteOutcome) : StateDB × Except PyErr Unit :=
  if s.has_processed k then
    (s, .ok ())
  else
    let db2 := s.db ++ [(k, ⟨now, eventData⟩)]
    ({ db := db2, file := save_db db2 s.file w }, .ok ())

end StateDB

/-- The StateDB operations a caller can perform after construction, plus a
simulated process restart (`reload`): a fresh StateDB constructed over the
same durable file. -/
inductive Op where
  | mark (k : String) (eventData : String) (now : Nat) (w : WriteOutcome)
  | reload
  deriving DecidableEq, Repr

/-- One operation on the system state. A `reload` re-runs _load_db on the
current file (which never raises in our file model, so the fallback branch
is unreachable). -/
def stepOp (s : StateDB) : Op → StateDB
  | .mark k d now w => (s.mark_as_processed k d now w).1
  | .reload =>
      { db := match StateDB.load_db s.file with
              | .ok db => db
              | .error _ => []
        file := s.file }

/-- A sequence of operations, applied left to right. -/
def runOps (s : StateDB) (ops : List Op) : StateDB :=
  ops.foldl stepOp s

/-- An operation whose underlying file write (if any) succeeds. -/
def Op.writeOk : Op → Prop
  | .mark _ _ _ w => w = .ok
  | .reload => True

instance : (op : Op) → Decidable op.writeOk
  | .mark _ _ _ w => inferInstanceAs (Decidable (w = .ok))
  | .reload => inferInstanceAs (Decidable True)

/-! Embedding of TransactionProcessor and the drain loop. -/

/-- The observable steps taken while handling one event: the
replay-protection lookup, the validation block, the call into
_simulate_destination_tx, and the call into mark_as_processed. -/
inductive Step where
  | checkReplay
  | validateStep
  | executeCall
  | markCall
  deriving DecidableEq, Repr

/-- Subscript access on an optional field: KeyError when absent. -/
def getItem {α : Type} (o : Option α) (field : String) : Except PyErr α :=
  match o with
  | some v => .ok v
  | none => .error (.keyError field)

/-- Embeds _simulate_destination_tx (script.py lines 212-236): it builds the
tx_details dictionary, reading the sender field, then (inside the nested args
literal) recipient, amount and token; an absent field raises KeyError at that
read. Otherwise it only logs and sleeps. -/
def simulate_destination_tx (a : EventArgs) : Except PyErr Unit := do
  let _ ← getItem a.sender "sender"
  let _ ← getItem a.recipient "recipient"
  let _ ← getItem a.amount "amount"
  let _ ← getItem a.token "token"
  .ok ()

/-- The required-field check of process_lock_event (script.py line 196):
membership of sender, token, amount and destinationChainId in the argument
dictionary — note that recipient is not in the checked list. -/
def fieldsPresent (a : EventArgs) : Bool :=
  a.sender.isSome && a.token.isSome && a.amount.isSome && a.destinationChainId.isSome

/-- Validation outcomes of the checks at script.py lines 194-202. -/
inductive ValidationError where
  | missingField
  | nonPositiveAmount
  deriving DecidableEq, Repr

/-- The validation block of process_lock_event (script.py lines 194-202) as a
pure function: required fields present, then the amount tested against zero. -/
def validate (a : EventArgs) : Except ValidationError Unit :=
  if !fieldsPresent a then .error .missingField
  else if a.amount.getD 0 ≤ 0 then .error .nonPositiveAmount
  else .ok ()

/-- Result of handling one event: the state store afterwards, the trace of
steps taken in order, and the Python exception escaping the call, if any. -/
structure ProcOutcome where
  state : StateDB
  trace : List Step
  err : Option PyErr
  deriving DecidableEq, Repr

/-- Embeds TransactionProcessor.process_lock_event (script.py lines 176-210):
1. replay protection via has_processed on the event identifier, skipping when
   already processed;
2. required-field check (sender, token, amount, destinationChainId), skipping
   when any is absent;
3. the non-positive-amount check, skipping when the amount is at most zero;
4. _simulate_destination_tx (an exception there propagates, and
   mark_as_processed is then not reached);
5. mark_as_processed with the event identifier and the serialized args. -/
def process_lock_event (s : StateDB) (e : RawEvent) (now : Nat)
    (w : WriteOutcome) : ProcOutcome :=
  let key := eventIdentifier e
  if s.has_processed key then
    ⟨s, [.checkReplay], none⟩
  else if !fieldsPresent e.args then
    ⟨s, [.checkReplay, .validateStep], none⟩
  else if e.args.amount.getD 0 ≤ 0 then
    ⟨s, [.checkReplay, .validateStep], none⟩
  else
    match simulate_destination_tx e.args with
    | .error er => ⟨s, [.checkReplay, .validateStep, .executeCall], some er⟩
    | .ok _ =>
        let s2 := (s.mark_as_processed key (reprArgs e.args) now w).1
        ⟨s2, [.checkReplay, .validateStep, .executeCall, .markCall], none⟩

/-- One fetched event together with its ambient effects: the wall-clock time
and the outcome of the file write, were a mark_as_processed to happen while
handling it. -/
abbrev Fetched := RawEvent × Nat × WriteOutcome

/-- Embeds the drain loop of start_listening (script.py lines 308-309): the
for-loop over the fetched events. Events are handled in fetched order; an
exception escaping process_lock_event aborts the rest of the batch (it is
caught only by the handler around the whole cycle). Returns the final store,
the concatenated step trace, and the escaping exception, if any. -/
def drainBatch (s : StateDB) : List Fetched → StateDB × List Step × Option PyErr
  | [] => (s, [], none)
  | (e, now, w) :: rest =>
      let r := process_lock_event s e now w
      match r.err with
      | some er => (r.state, r.trace, some er)
      | none =>
          let (s2, t, er) := drainBatch r.state rest
          (s2, r.trace ++ t, er)

/-! Helper lemmas about lookups and the store operations. -/

theorem dbLookup_append_of_none {l : EventDb} {k : String}
    (h : dbLookup k l = none) (l2 : EventDb) :
    dbLookup k (l ++ l2) = dbLookup k l2 := by
  induction l with
  | nil => rfl
  | cons p rest ih =>
      obtain ⟨k1, v1⟩ := p
      by_cases hk : k = k1
      · subst hk; simp [dbLookup] at h
      · simp only [dbLookup, if_neg hk] at h
        simpa only [List.cons_append, dbLookup, if_neg hk] using ih h

theorem dbLookup_append_of_some {l : EventDb} {k : String} {v : ProcessedRecord}
    (h : dbLookup k l = some v) (l2 : EventDb) :
    dbLookup k (l ++ l2) = some v := by
  induction l with
  | nil => simp [dbLookup] at h
  | cons p rest ih =>
      obtain ⟨k1, v1⟩ := p
      by_cases hk : k = k1
      · subst hk
        simp only [dbLookup, if_pos rfl] at h
        simpa only [List.cons_append, dbLookup, if_pos rfl] using h
      · simp only [dbLookup, if_neg hk] at h
        simpa only [List.cons_append, dbLookup, if_neg hk] using ih h

theorem dbLookup_singleton_self (k : String) (r : ProcessedRecord) :
    dbLookup k [(k, r)] = some r := by
  simp [dbLookup]

namespace StateDB

/-- Unfolding of mark_as_processed on a key not yet present. -/
theorem mark_fresh {s : StateDB} {k : String} (h : s.has_processed k = false)
    (d : String) (now : Nat) (w : WriteOutcome) :
    s.mark_as_processed k d now w =
      ({ db := s.db ++ [(k, ⟨now, d⟩)],
         file := save_db (s.db ++ [(k, ⟨now, d⟩)]) s.file w }, .ok ()) := by
  unfold mark_as_processed
  simp [h]

/-- Unfolding of mark_as_processed on a key already present: a silent no-op. -/
theorem mark_of_processed {s : StateDB} {k : String} (h : s.has_processed k = true)
    (d : String) (now : Nat) (w : WriteOutcome) :
    s.mark_as_processed k d now w = (s, .ok ()) := by
  unfold mark_as_processed
  simp [h]

/-- Absence of a key in the store, stated as a lookup equation. -/
theorem lookup_eq_none_of_not_processed {s : StateDB} {k : String}
    (h : s.has_processed k = false) : dbLookup k s.db = none := by
  unfold has_processed at h
  exact Option.not_isSome_iff_eq_none.mp (by simp [h])

/-- After any mark_as_processed of a key, the key is present in memory. -/
theorem has_processed_mark_self (s : StateDB) (k d : String) (now : Nat)
    (w : WriteOutcome) :
    ((s.mark_as_processed k d now w).1).has_processed k = true := by
  by_cases h : s.has_processed k = true
  · rw [mark_of_processed h]; exact h
  · have h2 : s.has_processed k = false := by
      cases h3 : s.has_processed k
      · rfl
      · exact absurd h3 h
    rw [mark_fresh h2]
    unfold has_processed
    rw [dbLookup_append_of_none (lookup_eq_none_of_not_processed h2)]
    simp [dbLookup_singleton_self]

/-- Marking some key never removes another key from memory. -/
theorem has_processed_mark_mono {s : StateDB} {k : String}
    (h : s.has_processed k = true) (k2 d : String) (now : Nat) (w : WriteOutcome) :
    ((s.mark_as_processed k2 d now w).1).has_processed k = true := by
  by_cases h2 : s.has_processed k2 = true
  · rw [mark_of_processed h2]; exact h
  · have h3 : s.has_processed k2 = false := by
      cases h4 : s.has_processed k2
      · rfl
      · exact absurd h4 h2
    rw [mark_fresh h3]
    unfold has_processed at h ⊢
    obtain ⟨v, hv⟩ := Option.isSome_iff_exists.mp h
    rw [dbLookup_append_of_some hv]
    rfl

end StateDB

/-- The persistence invariant tracked for the durability claims: a key is in
memory and in a well-formed durable file. -/
def durably (k : String) (s : StateDB) : Prop :=
  s.has_processed k = true ∧
    ∃ fdb : EventDb, s.file = .json fdb ∧ (dbLookup k fdb).isSome = true

/-- The invariant is preserved by every operation whose write succeeds. -/
theorem durably_step {k : String} {s : StateDB} {op : Op}
    (hd : durably k s) (hw : op.writeOk) : durably k (stepOp s op) := by
  obtain ⟨hmem, fdb, hfile, hfdb⟩ := hd
  cases op with
  | reload =>
      constructor
      · simp [stepOp, hfile, StateDB.load_db, StateDB.has_processed, hfdb]
      · exact ⟨fdb, by simp [stepOp, hfile], hfdb⟩
  | mark k2 d now w =>
      have hw2 : w = .ok := hw
      subst hw2
      by_cases h : s.has_processed k2 = true
      · rw [stepOp, StateDB.mark_of_processed h]
        exact ⟨hmem, fdb, hfile, hfdb⟩
      · have h3 : s.has_processed k2 = false := by
          cases h4 : s.has_processed k2
          · rfl
          · exact absurd h4 h
        rw [stepOp, StateDB.mark_fresh h3]
        unfold StateDB.has_processed at hmem
        obtain ⟨v, hv⟩ := Option.isSome_iff_exists.mp hmem
        constructor
        · show (dbLookup k (s.db ++ [(k2, ⟨now, d⟩)])).isSome = true
          rw [dbLookup_append_of_some hv]
          rfl
        · refine ⟨s.db ++ [(k2, ⟨now, d⟩)], ?_, ?_⟩
          · rfl
          · rw [dbLookup_append_of_some hv]
            rfl

/-- The invariant is preserved by every sequence of operations whose writes
succeed. -/
theorem durably_runOps {k : String} {s : StateDB} {ops : List Op}
    (hd : durably k s) (hw : ∀ op ∈ ops, op.writeOk) :
    durably k (runOps s ops) := by
  induction ops generalizing s with
  | nil => exact hd
  | cons op rest ih =>
      rw [runOps, List.foldl_cons]
      exact ih (durably_step hd (hw op (List.mem_cons_self op rest)))
        (fun o ho => hw o (List.mem_cons_of_mem op ho))

theorem bool_eq_false {b : Bool} (h : ¬ b = true) : b = false := by
  cases b
  · rfl
  · exact absurd rfl h

/-- Replay protection short-circuits the whole handler. -/
theorem process_lock_event_of_processed {s : StateDB} {e : RawEvent}
    (h : s.has_processed (eventIdentifier e) = true) (now : Nat)
    (w : WriteOutcome) :
    process_lock_event s e now w = ⟨s, [.checkReplay], none⟩ := by
  unfold process_lock_event
  simp [h]

/-- The missing-required-field branch of the handler. -/
theorem process_skip_fields {s : StateDB} {e : RawEvent}
    (h1 : s.has_processed (eventIdentifier e) = false)
    (h2 : fieldsPresent e.args = false) (now : Nat) (w : WriteOutcome) :
    process_lock_event s e now w = ⟨s, [.checkReplay, .validateStep], none⟩ := by
  unfold process_lock_event
  simp [h1, h2]

/-- The non-positive-amount branch of the handler. -/
theorem process_skip_amount {s : StateDB} {e : RawEvent}
    (h1 : s.has_processed (eventIdentifier e) = false)
    (h2 : fieldsPresent e.args = true)
    (h3 : e.args.amount.getD 0 ≤ 0) (now : Nat) (w : WriteOutcome) :
    process_lock_event s e now w = ⟨s, [.checkReplay, .validateStep], none⟩ := by
  unfold process_lock_event
  simp [h1, h2, h3]

/-- The branch of the handler that reaches the simulated execute. -/
theorem process_exec {s : StateDB} {e : RawEvent}
    (h1 : s.has_processed (eventIdentifier e) = false)
    (h2 : fieldsPresent e.args = true)
    (h3 : ¬ e.args.amount.getD 0 ≤ 0) (now : Nat) (w : WriteOutcome) :
    process_lock_event s e now w =
      match simulate_destination_tx e.args with
      | .error er => ⟨s, [.checkReplay, .validateStep, .executeCall], some er⟩
      | .ok _ =>
          ⟨(s.mark_as_processed (eventIdentifier e) (reprArgs e.args) now w).1,
           [.checkReplay, .validateStep, .executeCall, .markCall], none⟩ := by
  unfold process_lock_event
  simp [h1, h2, h3]

/-- A batch made only of already-processed events is drained without any
state change: every event contributes just its replay check. -/
theorem drainBatch_all_processed {s : StateDB} {evs : List Fetched}
    (hevs : ∀ f ∈ evs, s.has_processed (eventIdentifier f.1) = true) :
    drainBatch s evs = (s, List.replicate evs.length Step.checkReplay, none) := by
  induction evs with
  | nil => rfl
  | cons f rest ih =>
      obtain ⟨e, now, w⟩ := f
      have h1 : s.has_processed (eventIdentifier e) = true :=
        hevs (e, now, w) (List.mem_cons_self _ _)
      have h2 : ∀ f ∈ rest, s.has_processed (eventIdentifier f.1) = true :=
        fun f hf => hevs f (List.mem_cons_of_mem _ hf)
      simp only [drainBatch, process_lock_event_of_processed h1, ih h2,
        List.length_cons, List.replicate_succ]
      rfl

/-! The claim theorems. -/

/-- **C2** An event whose key is already recorded in the store is skipped:
no execute, no mark, store unchanged; and a poll batch that re-delivers only
already-processed events leaves the store unchanged and performs zero
execute (and mark) calls. -/
theorem c2_redelivery_skipped (s : StateDB) (e : RawEvent) (now : Nat)
    (w : WriteOutcome) (evs : List Fetched)
    (he : s.has_processed (eventIdentifier e) = true)
    (hevs : ∀ f ∈ evs, s.has_processed (eventIdentifier f.1) = true) :
    process_lock_event s e now w = ⟨s, [Step.checkReplay], none⟩ ∧
    (drainBatch s evs).1 = s ∧
    Step.executeCall ∉ (drainBatch s evs).2.1 ∧
    Step.markCall ∉ (drainBatch s evs).2.1 := by
  have hb := drainBatch_all_processed hevs
  refine ⟨process_lock_event_of_processed he now w, ?_, ?_, ?_⟩ <;> rw [hb] <;>
    simp [List.mem_replicate]

/-- Sample valid event: tx 0x1, log index 0, amount 50. -/
def sampleEvent0 : RawEvent :=
  { transactionHash := "0x1", logIndex := 0,
    args := { sender := some "0xaaa", token := some "0xbbb", amount := some 50,
              destinationChainId := some 137, recipient := some "0xccc" } }

/-- Sample valid event: tx 0x1, log index 1, amount 75. -/
def sampleEvent1 : RawEvent :=
  { transactionHash := "0x1", logIndex := 1,
    args := { sender := some "0xaaa", token := some "0xbbb", amount := some 75,
              destinationChainId := some 137, recipient := some "0xccc" } }

/-- A store in which both sample events are already recorded. -/
def processedStore : StateDB :=
  ⟨[("0x1-0", ⟨10, "snap0"⟩), ("0x1-1", ⟨11, "snap1"⟩)],
   .json [("0x1-0", ⟨10, "snap0"⟩), ("0x1-1", ⟨11, "snap1"⟩)]⟩

/-- **C2 witness** A concrete re-delivered batch of the two sample events is
fully skipped. -/
theorem c2_witness :
    process_lock_event processedStore sampleEvent0 20 .ok =
      ⟨processedStore, [Step.checkReplay], none⟩ ∧
    (drainBatch processedStore
        [(sampleEvent0, 20, WriteOutcome.ok), (sampleEvent1, 21, WriteOutcome.ok)]).1
      = processedStore ∧
    Step.executeCall ∉ (drainBatch processedStore
        [(sampleEvent0, 20, WriteOutcome.ok), (sampleEvent1, 21, WriteOutcome.ok)]).2.1 ∧
    Step.markCall ∉ (drainBatch processedStore
        [(sampleEvent0, 20, WriteOutcome.ok), (sampleEvent1, 21, WriteOutcome.ok)]).2.1 :=
  c2_redelivery_skipped processedStore sampleEvent0 20 .ok _ (by decide) (by decide)

/-- **C5** For an event carrying a non-positive amount, the handler performs
no execute and no mark and leaves the store unchanged, whatever the store;
and when the checked fields are present, the validation block yields
NonPositiveAmount. -/
theorem c5_nonpositive_amount (e : RawEvent) (a : Int)
    (hamt : e.args.amount = some a) (ha : a ≤ 0) :
    (∀ (s : StateDB) (now : Nat) (w : WriteOutcome),
        Step.executeCall ∉ (process_lock_event s e now w).trace ∧
        Step.markCall ∉ (process_lock_event s e now w).trace ∧
        (process_lock_event s e now w).state = s) ∧
    (fieldsPresent e.args = true → validate e.args = .error .nonPositiveAmount) := by
  have hle : e.args.amount.getD 0 ≤ 0 := by rw [hamt]; exact ha
  constructor
  · intro s now w
    by_cases h1 : s.has_processed (eventIdentifier e) = true
    · rw [process_lock_event_of_processed h1]
      exact ⟨by simp, by simp, rfl⟩
    · have h1f := bool_eq_false h1
      by_cases h2 : fieldsPresent e.args = true
      · rw [process_skip_amount h1f h2 hle]
        exact ⟨by simp, by simp, rfl⟩
      · rw [process_skip_fields h1f (bool_eq_false h2)]
        exact ⟨by simp, by simp, rfl⟩
  · intro hf
    unfold validate
    rw [hf]
    simp [hle]

/-- Sample event with a negative amount and all fields present. -/
def negAmountEvent : RawEvent :=
  { transactionHash := "0x2", logIndex := 3,
    args := { sender := some "0xaaa", token := some "0xbbb", amount := some (-7),
              destinationChainId := some 1, recipient := some "0xccc" } }

/-- **C5 witness** A concrete event with amount -7 is rejected as
NonPositiveAmount and never reaches the execute step. -/
theorem c5_witness :
    negAmountEvent.args.amount = some (-7) ∧ ((-7 : Int) ≤ 0) ∧
    Step.executeCall ∉ (process_lock_event ⟨[], .missing⟩ negAmountEvent 0 .ok).trace ∧
    validate negAmountEvent.args = .error .nonPositiveAmount :=
  ⟨rfl, by decide,
    ((c5_nonpositive_amount negAmountEvent (-7) rfl (by decide)).1 ⟨[], .missing⟩ 0 .ok).1,
    (c5_nonpositive_amount negAmountEvent (-7) rfl (by decide)).2 rfl⟩

/-- **C6** The mark step is reached only in the handler run whose trace is
exactly check-validate-execute-mark, and only when the simulated destination
transaction reported success: strict execute-then-commit, never
commit-then-execute or commit-without-execute. -/
theorem c6_execute_before_mark (s : StateDB) (e : RawEvent) (now : Nat)
    (w : WriteOutcome)
    (h : Step.markCall ∈ (process_lock_event s e now w).trace) :
    (process_lock_event s e now w).trace =
      [Step.checkReplay, Step.validateStep, Step.executeCall, Step.markCall] ∧
    simulate_destination_tx e.args = .ok () := by
  by_cases h1 : s.has_processed (eventIdentifier e) = true
  · rw [process_lock_event_of_processed h1] at h
    simp at h
  · have h1f := bool_eq_false h1
    by_cases h2 : fieldsPresent e.args = true
    · by_cases h3 : e.args.amount.getD 0 ≤ 0
      · rw [process_skip_amount h1f h2 h3] at h
        simp at h
      · rw [process_exec h1f h2 h3] at h ⊢
        cases hsim : simulate_destination_tx e.args with
        | error er =>
            rw [hsim] at h
            simp at h
        | ok u =>
            cases u
            exact ⟨rfl, rfl⟩
    · rw [process_skip_fields h1f (bool_eq_false h2)] at h
      simp at h

/-- **C6 witness** A concrete fresh valid event is marked, with the full
canonical trace and a successful simulated execute. -/
theorem c6_witness :
    Step.markCall ∈ (process_lock_event ⟨[], .missing⟩ sampleEvent1 9 .ok).trace ∧
    (process_lock_event ⟨[], .missing⟩ sampleEvent1 9 .ok).trace =
      [Step.checkReplay, Step.validateStep, Step.executeCall, Step.markCall] ∧
    simulate_destination_tx sampleEvent1.args = .ok () :=
  ⟨by decide, c6_execute_before_mark ⟨[], .missing⟩ sampleEvent1 9 .ok (by decide)⟩

/-- **C1 (amended)** After the first mark_as_processed of a fresh key whose
underlying file write succeeds, has_processed of that key answers true after
every subsequent sequence of StateDB operations whose file writes also
succeed — reloads from the persisted file (simulated restarts) included. -/
theorem c1_processed_persists (s : StateDB) (k d : String) (now : Nat)
    (h : s.has_processed k = false) (ops : List Op)
    (hops : ∀ op ∈ ops, op.writeOk) :
    (runOps (s.mark_as_processed k d now .ok).1 ops).has_processed k = true := by
  have hnone := StateDB.lookup_eq_none_of_not_processed h
  have hd : durably k (s.mark_as_processed k d now .ok).1 := by
    rw [StateDB.mark_fresh h]
    constructor
    · show (dbLookup k (s.db ++ [(k, ⟨now, d⟩)])).isSome = true
      rw [dbLookup_append_of_none hnone, dbLookup_singleton_self]
      rfl
    · refine ⟨s.db ++ [(k, ⟨now, d⟩)], ?_, ?_⟩
      · rfl
      · rw [dbLookup_append_of_none hnone, dbLookup_singleton_self]
        rfl
  exact (durably_runOps hd hops).1

/-- **C1 counterexample** The claim as stated fails: mark_as_processed
returns plain success even when the underlying save raises IOError (the
error is caught and only logged), and a subsequent reload from the persisted
file then reports the key as not processed. -/
theorem c1_counterexample :
    ((⟨[], .missing⟩ : StateDB).mark_as_processed "0xa-0" "snap" 1 .failOpen).2
        = .ok () ∧
    (runOps ⟨[], .missing⟩
        [Op.mark "0xa-0" "snap" 1 .failOpen, Op.reload]).has_processed "0xa-0"
      = false :=
  ⟨rfl, by decide⟩

/-- **C1 witness** A concrete run: a fresh key marked with a successful
write stays processed across a reload, a further successful mark of another
key, and another reload. -/
theorem c1_witness :
    (⟨[], .missing⟩ : StateDB).has_processed "0xa-0" = false ∧
    (∀ op ∈ [Op.reload, Op.mark "0xb-1" "snap2" 2 WriteOutcome.ok, Op.reload],
      op.writeOk) ∧
    (runOps ((⟨[], .missing⟩ : StateDB).mark_as_processed "0xa-0" "snap" 1 .ok).1
        [Op.reload, Op.mark "0xb-1" "snap2" 2 WriteOutcome.ok, Op.reload]).has_processed
        "0xa-0" = true :=
  ⟨by decide, by decide,
    c1_processed_persists ⟨[], .missing⟩ "0xa-0" "snap" 1 (by decide) _ (by decide)⟩

/-- **C3 counterexample** The second mark_as_processed of the same key does
not surface a distinct AlreadyProcessed error: it returns the same plain
success as the first call (the code logs a warning and returns None). -/
theorem c3_counterexample :
    ((((⟨[], .missing⟩ : StateDB).mark_as_processed "0xa-0" "snap1" 1 .ok).1).mark_as_processed
        "0xa-0" "snap2" 2 .ok).2 = .ok () := rfl

/-- **C3 (amended)** Calling mark_as_processed twice with the same key is
idempotent in state: the second call returns exactly the state left by the
first call, together with plain success, so the stored record (timestamp and
snapshot) is not overwritten — but no AlreadyProcessed error is surfaced to
the caller. -/
theorem c3_second_mark_noop (s : StateDB) (k d d2 : String) (now now2 : Nat)
    (w w2 : WriteOutcome) :
    ((s.mark_as_processed k d now w).1).mark_as_processed k d2 now2 w2 =
      ((s.mark_as_processed k d now w).1, .ok ()) :=
  StateDB.mark_of_processed (StateDB.has_processed_mark_self s k d now w) d2 now2 w2

/-- **C8** A missing persisted state file and a corrupt one both yield a
successful StateDB initialization with empty state; initialization never
fails for any file condition. -/
theorem c8_cold_start :
    StateDB.init .missing = .ok ⟨[], .missing⟩ ∧
    StateDB.init .corrupt = .ok ⟨[], .corrupt⟩ ∧
    ∀ f : FileContent, ∃ s : StateDB, StateDB.init f = .ok s := by
  refine ⟨rfl, rfl, ?_⟩
  intro f
  cases f <;> exact ⟨_, rfl⟩

/-- The event of the C4 failing input: all fields present except recipient. -/
def missingRecipientEvent : RawEvent :=
  { transactionHash := "0x9", logIndex := 0,
    args := { sender := some "0xaaa", token := some "0xbbb", amount := some 50,
              destinationChainId := some 137, recipient := none } }

/-- **C4 (code bug)** An event missing the required recipient field is not
rejected by validation — the checked list at script.py line 196 omits
recipient — so the handler reaches the destination-chain simulation, which
then raises KeyError on its recipient read; the exception escapes the
handler (mark_as_processed is not reached), instead of the clean
MissingField skip the claim requires. -/
theorem c4_missing_recipient_not_rejected :
    validate missingRecipientEvent.args = .ok () ∧
    process_lock_event ⟨[], .missing⟩ missingRecipientEvent 0 .ok =
      ⟨⟨[], .missing⟩, [Step.checkReplay, Step.validateStep, Step.executeCall],
        some (PyErr.keyError "recipient")⟩ :=
  ⟨rfl, by decide⟩

/-- **C7 (code bug)** The save path truncates the durable file in place (it
opens the file with mode w) instead of writing to a temporary location and
atomically renaming: a write that fails after the open leaves the file
corrupt rather than byte-for-byte unchanged, and the previously committed
record is no longer seen after a reload. -/
theorem c7_truncate_in_place :
    ((⟨[("0xa-0", ⟨1, "snap"⟩)], .json [("0xa-0", ⟨1, "snap"⟩)]⟩ : StateDB).mark_as_processed
        "0xb-1" "snap2" 2 .failMid).1.file = .corrupt ∧
    FileContent.corrupt ≠ .json [("0xa-0", ⟨1, "snap"⟩)] ∧
    (stepOp ((⟨[("0xa-0", ⟨1, "snap"⟩)], .json [("0xa-0", ⟨1, "snap"⟩)]⟩ : StateDB).mark_as_processed
        "0xb-1" "snap2" 2 .failMid).1 Op.reload).has_processed "0xa-0" = false :=
  ⟨by decide, by decide, by decide⟩

/-- **C10** When the underlying file write fails with IOError,
mark_as_processed still returns plain success, the in-memory map keeps the
new key, and a reload from the unchanged persisted file reports the key as
not processed: in-memory and durable state diverge after a reported
success. -/
theorem c10_silent_save_failure (s : StateDB) (k d : String) (now : Nat)
    (h1 : s.has_processed k = false)
    (h2 : (stepOp s Op.reload).has_processed k = false) :
    (s.mark_as_processed k d now .failOpen).2 = .ok () ∧
    ((s.mark_as_processed k d now .failOpen).1).has_processed k = true ∧
    (stepOp (s.mark_as_processed k d now .failOpen).1 Op.reload).has_processed k
      = false := by
  have hnone := StateDB.lookup_eq_none_of_not_processed h1
  rw [StateDB.mark_fresh h1]
  refine ⟨rfl, ?_, ?_⟩
  · show (dbLookup k (s.db ++ [(k, ⟨now, d⟩)])).isSome = true
    rw [dbLookup_append_of_none hnone, dbLookup_singleton_self]
    rfl
  · exact h2

/-- **C10 witness** A concrete divergence: marking a fresh key while the
medium is unwritable reports success and sets the in-memory flag, yet a
reload sees the key as unprocessed. -/
theorem c10_witness :
    ((⟨[], .missing⟩ : StateDB).mark_as_processed "0xa-0" "snap" 1 .failOpen).2
        = .ok () ∧
    (((⟨[], .missing⟩ : StateDB).mark_as_processed "0xa-0" "snap" 1 .failOpen).1).has_processed
        "0xa-0" = true ∧
    (stepOp ((⟨[], .missing⟩ : StateDB).mark_as_processed "0xa-0" "snap" 1 .failOpen).1
        Op.reload).has_processed "0xa-0" = false :=
  c10_silent_save_failure ⟨[], .missing⟩ "0xa-0" "snap" 1 (by decide) (by decide)

/-- Unfolding of one drain-loop iteration, with projections instead of the
destructuring let. -/
theorem drainBatch_cons (s : StateDB) (e : RawEvent) (now : Nat)
    (w : WriteOutcome) (rest : List Fetched) :
    drainBatch s ((e, now, w) :: rest) =
      match (process_lock_event s e now w).err with
      | some er =>
          ((process_lock_event s e now w).state,
           (process_lock_event s e now w).trace, some er)
      | none =>
          ((drainBatch (process_lock_event s e now w).state rest).1,
           (process_lock_event s e now w).trace ++
             (drainBatch (process_lock_event s e now w).state rest).2.1,
           (drainBatch (process_lock_event s e now w).state rest).2.2) := by
  cases her : (process_lock_event s e now w).err with
  | some er => simp only [drainBatch, her]
  | none =>
      rcases hdr : drainBatch (process_lock_event s e now w).state rest with ⟨s2, t2, er2⟩
      simp only [drainBatch, her, hdr]

/-- One iteration whose handler raised: the batch is aborted there. -/
theorem drainBatch_cons_err {s : StateDB} {e : RawEvent} {now : Nat}
    {w : WriteOutcome} {er : PyErr}
    (her : (process_lock_event s e now w).err = some er) (rest : List Fetched) :
    drainBatch s ((e, now, w) :: rest) =
      ((process_lock_event s e now w).state,
       (process_lock_event s e now w).trace, some er) := by
  rw [drainBatch_cons, her]

/-- One iteration whose handler returned normally: the loop continues on the
store it produced. -/
theorem drainBatch_cons_ok {s : StateDB} {e : RawEvent} {now : Nat}
    {w : WriteOutcome}
    (her : (process_lock_event s e now w).err = none) (rest : List Fetched) :
    drainBatch s ((e, now, w) :: rest) =
      ((drainBatch (process_lock_event s e now w).state rest).1,
       (process_lock_event s e now w).trace ++
         (drainBatch (process_lock_event s e now w).state rest).2.1,
       (drainBatch (process_lock_event s e now w).state rest).2.2) := by
  rw [drainBatch_cons, her]

/-- Draining a concatenated batch processes the first part, then the second
from the store the first part produced, concatenating traces — provided no
exception escaped during the first part. -/
theorem drainBatch_append (s : StateDB) (f1 f2 : List Fetched)
    (h : (drainBatch s f1).2.2 = none) :
    drainBatch s (f1 ++ f2) =
      ((drainBatch (drainBatch s f1).1 f2).1,
       (drainBatch s f1).2.1 ++ (drainBatch (drainBatch s f1).1 f2).2.1,
       (drainBatch (drainBatch s f1).1 f2).2.2) := by
  induction f1 generalizing s with
  | nil => simp [drainBatch]
  | cons f rest ih =>
      obtain ⟨e, now, w⟩ := f
      cases her : (process_lock_event s e now w).err with
      | some er =>
          rw [drainBatch_cons_err her rest] at h
          simp at h
      | none =>
          rw [drainBatch_cons_ok her rest] at h
          have h2 : (drainBatch (process_lock_event s e now w).state rest).2.2
              = none := h
          rw [List.cons_append, drainBatch_cons_ok her (rest ++ f2),
            drainBatch_cons_ok her rest, ih _ h2]
          simp [List.append_assoc]

/-- The event of the C9 counterexample: already processed and invalid
(amount zero) at the same time. -/
def staleInvalidEvent : RawEvent :=
  { transactionHash := "0x1", logIndex := 0,
    args := { sender := some "0xaaa", token := some "0xbbb", amount := some 0,
              destinationChainId := some 137, recipient := some "0xccc" } }

/-- **C9 counterexample** The handler consults the durable ledger before
validating: for an event that is both already processed and invalid (amount
zero), the trace records only the replay check and validation never runs —
so the per-event order is not validate-first-then-dedup as claimed. -/
theorem c9_counterexample :
    (process_lock_event
        ⟨[("0x1-0", ⟨1, "snap"⟩)], .json [("0x1-0", ⟨1, "snap"⟩)]⟩
        staleInvalidEvent 2 .ok).trace = [Step.checkReplay] := by
  decide

/-- **C9 (amended)** Fetched events are handled strictly in fetched (ledger)
order — draining a concatenation processes the first part, then the second
from the resulting store, concatenating traces, provided no exception
escaped the first part — and each event goes through its steps in the order
replay-check, then validate, then execute, then mark on executor success:
every handler trace extends to that canonical sequence. -/
theorem c9_ledger_order (s : StateDB) (e : RawEvent) (now : Nat)
    (w : WriteOutcome) (f1 f2 : List Fetched)
    (h : (drainBatch s f1).2.2 = none) :
    (∃ t, (process_lock_event s e now w).trace ++ t =
        [Step.checkReplay, Step.validateStep, Step.executeCall, Step.markCall]) ∧
    drainBatch s (f1 ++ f2) =
      ((drainBatch (drainBatch s f1).1 f2).1,
       (drainBatch s f1).2.1 ++ (drainBatch (drainBatch s f1).1 f2).2.1,
       (drainBatch (drainBatch s f1).1 f2).2.2) := by
  refine ⟨?_, drainBatch_append s f1 f2 h⟩
  by_cases h1 : s.has_processed (eventIdentifier e) = true
  · rw [process_lock_event_of_processed h1]
    exact ⟨[Step.validateStep, Step.executeCall, Step.markCall], rfl⟩
  · have h1f := bool_eq_false h1
    by_cases h2 : fieldsPresent e.args = true
    · by_cases h3 : e.args.amount.getD 0 ≤ 0
      · rw [process_skip_amount h1f h2 h3]
        exact ⟨[Step.executeCall, Step.markCall], rfl⟩
      · rw [process_exec h1f h2 h3]
        cases simulate_destination_tx e.args with
        | error er => exact ⟨[Step.markCall], rfl⟩
        | ok u => exact ⟨[], rfl⟩
    · rw [process_skip_fields h1f (bool_eq_false h2)]
      exact ⟨[Step.executeCall, Step.markCall], rfl⟩

/-- **C9 witness** A concrete two-event batch split after its first event:
the drain threads the store left to right and the first handler trace
extends to the canonical order. -/
theorem c9_witness :
    (drainBatch ⟨[], .missing⟩ [(sampleEvent0, 20, WriteOutcome.ok)]).2.2 = none ∧
    ((∃ t, (process_lock_event ⟨[], .missing⟩ sampleEvent0 20 WriteOutcome.ok).trace ++ t =
        [Step.checkReplay, Step.validateStep, Step.executeCall, Step.markCall]) ∧
      drainBatch ⟨[], .missing⟩
          ([(sampleEvent0, 20, WriteOutcome.ok)] ++ [(sampleEvent1, 21, WriteOutcome.ok)]) =
        ((drainBatch (drainBatch ⟨[], .missing⟩ [(sampleEvent0, 20, WriteOutcome.ok)]).1
            [(sampleEvent1, 21, WriteOutcome.ok)]).1,
         (drainBatch ⟨[], .missing⟩ [(sampleEvent0, 20, WriteOutcome.ok)]).2.1 ++
           (drainBatch (drainBatch ⟨[], .missing⟩ [(sampleEvent0, 20, WriteOutcome.ok)]).1
              [(sampleEvent1, 21, WriteOutcome.ok)]).2.1,
         (drainBatch (drainBatch ⟨[], .missing⟩ [(sampleEvent0, 20, WriteOutcome.ok)]).1
            [(sampleEvent1, 21, WriteOutcome.ok)]).2.2)) :=
  ⟨by decide,
    c9_ledger_order ⟨[], .missing⟩ sampleEvent0 20 WriteOutcome.ok _ _ (by decide)⟩

end Bever
